import Mathlib

/-!
Shallow embedding of the store-return export pipeline (src/app.py):
form validation, row building, CSV encoding, filename construction,
the multi-transport export dispatcher, and the debug environment endpoint.

Conventions of the embedding:
* A Python `str` is a Lean `String`; `None` becomes `Option.none`.
* The WSGI form mapping is a `Form` structure: `form.get(name)` for the
  scalar fields becomes an `Option String` field, `form.getlist(name)`
  becomes a `List String` field.
* The process environment (`os.getenv`) is a function `String → Option String`.
* Bytes are `List Nat` (each entry < 256); `str.encode` is modelled by an
  explicit UTF-8 encoder over the characters of the string.
* A raising transport upload is an `Except` value supplied by the caller;
  the `try/except` blocks of the handler become matches on it.
-/

namespace StoreReturnApp

/-! ## UTF-8 encoding (models Python `str.encode("utf-8")`) -/

/-- UTF-8 encoding of a single character, as byte values. -/
def utf8EncodeChar (c : Char) : List Nat :=
  let n := c.toNat
  if n < 0x80 then [n]
  else if n < 0x800 then [0xC0 + n / 64, 0x80 + n % 64]
  else if n < 0x10000 then [0xE0 + n / 4096, 0x80 + n / 64 % 64, 0x80 + n % 64]
  else [0xF0 + n / 262144, 0x80 + n / 4096 % 64, 0x80 + n / 64 % 64, 0x80 + n % 64]

/-- UTF-8 encoding of a string, as the concatenation of its characters. -/
def utf8Encode (s : String) : List Nat :=
  (s.data.map utf8EncodeChar).flatten

/-! ## Python string primitives

`str.strip()` and `str.lower()`, written as structural recursion over the
character list so that they evaluate inside the kernel. -/

/-- Python `str.strip()`: drop leading and trailing whitespace. -/
def pyStrip (s : String) : String :=
  ⟨((s.data.dropWhile Char.isWhitespace).reverse.dropWhile Char.isWhitespace).reverse⟩

/-- Python `str.lower()` (over the characters that occur here). -/
def pyLower (s : String) : String :=
  ⟨s.data.map Char.toLower⟩

/-! ## CSV encoder (app.py `_make_csv_bytes`, lines 51–57)

`csv.DictWriter(sio, fieldnames=COLUMNS, extrasaction="ignore")` with the
default dialect: delimiter `,`, quote character `"`, QUOTE_MINIMAL (a field
is quoted iff it contains the delimiter, the quote character, or a line
break, with embedded quotes doubled), line terminator `"\r\n"`.
The final buffer is the text encoded as `"utf-8-sig"`: a U+FEFF prefix
followed by plain UTF-8. -/

/-- The fixed column list `COLUMNS` (app.py lines 33–37). -/
def COLUMNS : List String :=
  ["Sno", "CreatedDate", "CreatedBy", "DocumentNumber",
   "ParentCode", "ParentName", "TransactionType", "Quantity",
   "Source", "Destination"]

/-- QUOTE_MINIMAL: does this field need quoting? -/
def needsQuote (s : String) : Bool :=
  s.data.any (fun c => c = ',' || c = '"' || c = '\r' || c = '\n')

/-- Double every embedded quote character. -/
def escapeQuotes (s : String) : String :=
  ⟨(s.data.map (fun c => if c = '"' then ['"', '"'] else [c])).flatten⟩

/-- Render one CSV field under QUOTE_MINIMAL. -/
def csvField (s : String) : String :=
  if needsQuote s then "\"" ++ escapeQuotes s ++ "\"" else s

/-- Render one CSV record followed by the default line terminator. -/
def csvLine (fields : List String) : String :=
  String.intercalate "," (fields.map csvField) ++ "\r\n"

/-- A row dict, in insertion order, as built at app.py lines 171–182. -/
abbrev Row := List (String × String)

/-- `r.get(k, "")` on the row dict (app.py line 56). -/
def rowGet (r : Row) (k : String) : String :=
  (List.lookup k r).getD ""

/-- The CSV text: header record then one record per row, each record the
fixed columns looked up in the row (`writer.writeheader()` and
`writer.writerow({k: r.get(k, "") for k in COLUMNS})`). -/
def makeCsvString (rows : List Row) : String :=
  csvLine COLUMNS ++ String.join (rows.map (fun r => csvLine (COLUMNS.map (fun k => rowGet r k))))

/-- `_make_csv_bytes`: the CSV text encoded as `"utf-8-sig"`
(U+FEFF prefix, then UTF-8). -/
def makeCsvBytes (rows : List Row) : List Nat :=
  utf8Encode ("\uFEFF" ++ makeCsvString rows)

/-! ## Validation (app.py `_is_blank` line 107–108, `_validate_no_blanks` lines 111–146) -/

/-- `_is_blank`: `None`, or a string whose strip is empty.
(Form values are always strings, so the `isinstance` guard is vacuous here.) -/
def is_blank (v : Option String) : Bool :=
  match v with
  | none => true
  | some s => pyStrip s = ""

/-- The POST form: `request.form`. Scalar fields as `form.get(name)`,
repeated fields as `form.getlist(name ++ "[]")`. -/
structure Form where
  form_type : Option String
  createdBy : Option String
  documentNumber : Option String
  source : Option String
  destination : Option String
  parentCodes : List String
  parentNames : List String
  quantities : List String

/-- The scalar-field error messages (app.py lines 113–120): one entry per
blank field among CreatedBy, Source, Destination, in that order. -/
def scalarErrors (form : Form) : List String :=
  (if is_blank form.createdBy then ["• CreatedBy: is required."] else []) ++
  (if is_blank form.source then ["• Source: is required."] else []) ++
  (if is_blank form.destination then ["• Destination: is required."] else [])

/-- `total_rows` (app.py line 129): the max of the three list lengths. -/
def totalRows (form : Form) : Nat :=
  max (max form.parentCodes.length form.parentNames.length) form.quantities.length

/-- The blank field names of row `i` (app.py lines 131–140); an index past a
shorter list reads as `""`. -/
def rowIssues (form : Form) (i : Nat) : List String :=
  let pc := pyStrip (form.parentCodes.getD i "")
  let pn := pyStrip (form.parentNames.getD i "")
  let qty := pyStrip (form.quantities.getD i "")
  (if is_blank (some pc) then ["ParentCode"] else []) ++
  (if is_blank (some pn) then ["ParentName"] else []) ++
  (if is_blank (some qty) then ["Quantity"] else [])

/-- The list-section error messages (app.py lines 122–142). -/
def rowErrors (form : Form) : List String :=
  if form.parentCodes = [] ∧ form.quantities = [] ∧ form.parentNames = [] then
    ["• Items: please add at least one row."]
  else
    (List.range (totalRows form)).filterMap (fun i =>
      if rowIssues form i = [] then none
      else some ("• Row " ++ Nat.repr (i + 1) ++ ": blank -> " ++
        String.intercalate ", " (rowIssues form i)))

/-- All accumulated error messages of `_validate_no_blanks`, in order. -/
def validateErrors (form : Form) : List String :=
  scalarErrors form ++ rowErrors form

/-- `_validate_no_blanks`: `(ok, message)` (app.py lines 144–146). -/
def validate (form : Form) : Bool × String :=
  if validateErrors form = [] then (true, "")
  else (false, "Please fill all required fields:\n" ++
    String.intercalate "\n" (validateErrors form))

/-! ## Timestamps and filenames -/

/-- A wall-clock timestamp at second precision, as read from `datetime.now()`. -/
structure DateTime where
  year : Nat
  month : Nat
  day : Nat
  hour : Nat
  minute : Nat
  second : Nat
deriving DecidableEq

/-- Zero-padded two-digit rendering used by the strftime `%m`-style fields. -/
def pad2 (n : Nat) : String :=
  if n < 10 then "0" ++ Nat.repr n else Nat.repr n

/-- `strftime("%Y-%m-%d %H:%M:%S")` (app.py line 169). -/
def fmtCreatedDate (t : DateTime) : String :=
  Nat.repr t.year ++ "-" ++ pad2 t.month ++ "-" ++ pad2 t.day ++ " " ++
    pad2 t.hour ++ ":" ++ pad2 t.minute ++ ":" ++ pad2 t.second

/-- `strftime("%y%m%d%H%M%S")` (app.py line 184): `%y` is the year modulo 100. -/
def fmtTs (t : DateTime) : String :=
  pad2 (t.year % 100) ++ pad2 t.month ++ pad2 t.day ++
    pad2 t.hour ++ pad2 t.minute ++ pad2 t.second

/-- The filename base (app.py line 185). -/
def fnameBase (form_type : String) : String :=
  if form_type = "Store Return" then "STORE_RETURN" else "STORE_RET_DAMAGE"

/-- `filename = f"{base}{ts}.CSV"` (app.py line 186). -/
def mkFilename (form_type : String) (t : DateTime) : String :=
  fnameBase form_type ++ fmtTs t ++ ".CSV"

/-! ## Row building (app.py lines 158–182) -/

/-- One row dict as built in the loop body (app.py lines 171–182), in
insertion order. `i` is the loop index, the remaining arguments the already
stripped field values. -/
def buildRow (now_str created_by document_number source destination tt pc pn qty : String)
    (i : Nat) : Row :=
  [("Sno", Nat.repr (i + 1)),
   ("CreatedDate", now_str),
   ("CreatedBy", created_by),
   ("DocumentNumber", document_number),
   ("ParentCode", pc),
   ("ParentName", pn),
   ("TransactionType", tt),
   ("Quantity", qty),
   ("Source", source),
   ("Destination", destination)]

/-- The row-building loop (app.py lines 158–182). The loop runs over
`range(len(parent_codes))` and indexes `parent_names[i]` and
`quantities[i]` unchecked; Python raises `IndexError` when either list is
shorter than `parent_codes`, modelled here as `none`. -/
def buildRows (form : Form) (now : DateTime) : Option (List Row) :=
  if form.parentNames.length < form.parentCodes.length ∨
     form.quantities.length < form.parentCodes.length then none
  else
    let form_type := form.form_type.getD "Store Return"
    let created_by := pyStrip (form.createdBy.getD "")
    let document_number := pyStrip (form.documentNumber.getD "")
    let source := pyStrip (form.source.getD "")
    let destination := pyStrip (form.destination.getD "")
    let now_str := fmtCreatedDate now
    let tt := if form_type = "Store Return" then "Return" else "Damage"
    some ((List.range form.parentCodes.length).map (fun i =>
      buildRow now_str created_by document_number source destination tt
        (pyStrip (form.parentCodes.getD i ""))
        (pyStrip (form.parentNames.getD i ""))
        (pyStrip (form.quantities.getD i "")) i))

/-! ## Configuration and the export dispatcher (app.py lines 47–48, 194–217) -/

/-- The process environment: `os.getenv` with no default. -/
def Env := String → Option String

/-- `_get_env_bool(name)` (app.py lines 47–48): the variable (defaulting to
`"false"`), stripped and lowercased, is one of `"1" "true" "yes" "on"`. -/
def get_env_bool (env : Env) (name : String) : Bool :=
  ["1", "true", "yes", "on"].contains (pyLower (pyStrip ((env name).getD "false")))

/-- The transports named by the spec. The dispatcher code only ever
invokes FTP and the GAS webhook. -/
inductive Transport where
  | FTP
  | GAS
  | Drive
deriving DecidableEq

/-- Buffer/upload events of one dispatch run: `csv_bytes.seek(0)` and the
invocation of a transport upload. -/
inductive Ev where
  | seek0
  | att (t : Transport)
deriving DecidableEq

/-- The dispatcher (app.py lines 194–210): for each enabled switch, seek the
buffer to 0 and attempt the upload; a raised failure (`Except.error`) is
caught and flashed, a success appends the display name of the transport to
`sent_targets` (the GAS success also flashes the truncated reply).
Returns `(sent_targets, flashes, events)`. -/
def dispatch (env : Env) (ftpRes : Except String Unit) (gasRes : Except String String) :
    List String × List (String × String) × List Ev :=
  let ftpPart : List String × List (String × String) × List Ev :=
    if get_env_bool env "EXPORT_TO_FTP" then
      match ftpRes with
      | .ok _ => (["FTP"], [], [Ev.seek0, Ev.att Transport.FTP])
      | .error e => ([], [("FTP upload failed: " ++ e, "error")],
          [Ev.seek0, Ev.att Transport.FTP])
    else ([], [], [])
  let gasPart : List String × List (String × String) × List Ev :=
    if get_env_bool env "EXPORT_TO_GAS_WEBAPP" then
      match gasRes with
      | .ok reply => (["Google Apps Script"], [("GAS reply: " ++ reply.take 200, "info")],
          [Ev.seek0, Ev.att Transport.GAS])
      | .error e => ([], [("GAS upload failed: " ++ e, "error")],
          [Ev.seek0, Ev.att Transport.GAS])
    else ([], [], [])
  (ftpPart.1 ++ gasPart.1, ftpPart.2.1 ++ gasPart.2.1, ftpPart.2.2 ++ gasPart.2.2)

/-- The final status message (app.py lines 212–216). -/
def successMsg (filename : String) (sent : List String) : String :=
  "✅ File <b>" ++ filename ++ "</b> exported successfully " ++
    (if sent.isEmpty then "and saved locally."
     else "and sent to <b>" ++ String.intercalate ", " sent ++ "</b>.")

/-- The observable outcome of one POST to `/` (app.py lines 152–218):
either the validation-failure redirect, a crash from out-of-bounds list
indexing, or the export: the locally written file (name and bytes), the
built rows, the accumulated `sent_targets`, and the flashed messages in
order. -/
inductive PostOutcome where
  | rejected (msg : String)
  | crashed
  | exported (filename : String) (bytes : List Nat) (rows : List Row)
      (sent : List String) (flashes : List (String × String))

/-- The name and bytes of the locally written file, when one was written. -/
def PostOutcome.fileOf : PostOutcome → Option (String × List Nat)
  | .exported f b _ _ _ => some (f, b)
  | _ => none

/-- The accumulated `sent_targets` list, when the export ran. -/
def PostOutcome.sentOf : PostOutcome → Option (List String)
  | .exported _ _ _ s _ => some s
  | _ => none

/-- The POST branch of `index` (app.py lines 152–218): validate, build rows,
derive the filename, encode the CSV, write it locally, then dispatch the
enabled transports. `nowRows` and `nowFile` are the two `datetime.now()`
reads (lines 169 and 184); the transport results are supplied by the caller. -/
def handlePost (form : Form) (nowRows nowFile : DateTime) (env : Env)
    (ftpRes : Except String Unit) (gasRes : Except String String) : PostOutcome :=
  if (validate form).1 = false then .rejected (validate form).2
  else
    match buildRows form nowRows with
    | none => .crashed
    | some rows =>
      let filename := mkFilename (form.form_type.getD "Store Return") nowFile
      let bytes := makeCsvBytes rows
      let d := dispatch env ftpRes gasRes
      .exported filename bytes rows d.1 (d.2.1 ++ [(successMsg filename d.1, "success")])

/-! ## Debug endpoint (app.py lines 224–232) -/

/-- `DEBUG_KEY = os.getenv("DEBUG_KEY", "my-debug-key")` (app.py line 31). -/
def debugKey (env : Env) : String :=
  (env "DEBUG_KEY").getD "my-debug-key"

/-- The payload of an authorized `/debug/env` response: `bool(os.getenv(k))`
for the four keys, plus `drive_url_tail`. -/
structure DebugData where
  exportToGasSet : Bool
  driveWebappUrlSet : Bool
  driveUploadTokenSet : Bool
  secretKeySet : Bool
  driveUrlTail : String
deriving DecidableEq

/-- A `/debug/env` response: 403 `forbidden`, or 200 with the payload. -/
inductive DebugResp where
  | forbidden403
  | ok200 (d : DebugData)
deriving DecidableEq

/-- `bool(os.getenv(k))`: false when the variable is unset or set to the
empty string. -/
def envTruthy (env : Env) (k : String) : Bool :=
  ((env k).getD "") ≠ ""

/-- `debug_env` (app.py lines 224–232): reject unless the `key` query
parameter equals the configured debug key; otherwise report for each variable the
truthiness, and the last 25 characters of `DRIVE_WEBAPP_URL` (empty when the
URL is unset or empty). -/
def debug_env (env : Env) (key : Option String) : DebugResp :=
  if key ≠ some (debugKey env) then .forbidden403
  else
    let url := (env "DRIVE_WEBAPP_URL").getD ""
    .ok200
      { exportToGasSet := envTruthy env "EXPORT_TO_GAS_WEBAPP"
        driveWebappUrlSet := envTruthy env "DRIVE_WEBAPP_URL"
        driveUploadTokenSet := envTruthy env "DRIVE_UPLOAD_TOKEN"
        secretKeySet := envTruthy env "SECRET_KEY"
        driveUrlTail := if url ≠ "" then url.takeRight 25 else "" }

/-! ## Concrete example inputs -/

/-- A fully valid two-row submission. -/
def exForm : Form :=
  { form_type := some "Store Return", createdBy := some "alice",
    documentNumber := some "D1", source := some "WH1", destination := some "WH2",
    parentCodes := ["P1", "P2"], parentNames := ["Widget", "Gadget"],
    quantities := ["5", "3"] }

/-- The valid submission with a whitespace-only DocumentNumber. -/
def exFormDocBlank : Form :=
  { exForm with documentNumber := some "   " }

/-- The valid submission with a whitespace-only CreatedBy. -/
def exFormCreatedByBlank : Form :=
  { exForm with createdBy := some "   " }

/-- The valid submission with two independent blanks: CreatedBy and the
Quantity of row 2. -/
def exFormTwoBlanks : Form :=
  { exForm with createdBy := some " ", quantities := ["5", " "] }

/-- A concrete timestamp: 2025-03-01 10:00:00. -/
def exNow : DateTime := ⟨2025, 3, 1, 10, 0, 0⟩

/-- A second concrete timestamp, five seconds later. -/
def exNowFile : DateTime := ⟨2025, 3, 1, 10, 0, 5⟩

/-- An environment in which every variable is set to "true": every
boolean switch, under any name whatsoever, is enabled. -/
def envAllTrue : Env := fun _ => some "true"

/-- An environment whose SECRET_KEY is set to the empty string. -/
def envSecretEmpty : Env :=
  fun n => if n = "SECRET_KEY" then some "" else none

/-- An environment whose SECRET_KEY is set to "x". -/
def envSecretX : Env :=
  fun n => if n = "SECRET_KEY" then some "x" else none

/-- An environment whose SECRET_KEY is the non-empty secret "alpha-secret". -/
def envSecretAlpha : Env :=
  fun n => if n = "SECRET_KEY" then some "alpha-secret" else none

/-- An environment whose SECRET_KEY is the non-empty secret "beta-secret". -/
def envSecretBeta : Env :=
  fun n => if n = "SECRET_KEY" then some "beta-secret" else none

/-! ## General lemmas -/

theorem utf8Encode_append (s t : String) :
    utf8Encode (s ++ t) = utf8Encode s ++ utf8Encode t := by
  simp [utf8Encode, String.data_append]

theorem validate_fst_true_iff (form : Form) :
    (validate form).1 = true ↔ validateErrors form = [] := by
  unfold validate
  split <;> simp_all

theorem validate_snd_of_ne (form : Form) (h : validateErrors form ≠ []) :
    (validate form).2 = "Please fill all required fields:\n" ++
      String.intercalate "\n" (validateErrors form) := by
  unfold validate
  rw [if_neg h]

theorem mem_scalarErrors_createdBy (form : Form) (h : is_blank form.createdBy = true) :
    "• CreatedBy: is required." ∈ scalarErrors form := by
  unfold scalarErrors
  simp [h]

theorem mem_scalarErrors_source (form : Form) (h : is_blank form.source = true) :
    "• Source: is required." ∈ scalarErrors form := by
  unfold scalarErrors
  simp [h]

theorem mem_scalarErrors_destination (form : Form) (h : is_blank form.destination = true) :
    "• Destination: is required." ∈ scalarErrors form := by
  unfold scalarErrors
  simp [h]

theorem scalarErrors_sub_validateErrors (form : Form) :
    ∀ e ∈ scalarErrors form, e ∈ validateErrors form := by
  intro e he
  unfold validateErrors
  exact List.mem_append_left _ he

theorem totalRows_eq_zero_of_all_nil (form : Form)
    (h : form.parentCodes = [] ∧ form.quantities = [] ∧ form.parentNames = []) :
    totalRows form = 0 := by
  unfold totalRows
  rw [h.1, h.2.1, h.2.2]
  rfl

theorem mem_rowErrors (form : Form) (i : Nat) (hi : i < totalRows form)
    (hne : rowIssues form i ≠ []) :
    ("• Row " ++ Nat.repr (i + 1) ++ ": blank -> " ++
      String.intercalate ", " (rowIssues form i)) ∈ rowErrors form := by
  unfold rowErrors
  have hall : ¬(form.parentCodes = [] ∧ form.quantities = [] ∧ form.parentNames = []) := by
    intro hc
    rw [totalRows_eq_zero_of_all_nil form hc] at hi
    exact Nat.not_lt_zero i hi
  rw [if_neg hall]
  exact List.mem_filterMap.mpr ⟨i, List.mem_range.mpr hi, by rw [if_neg hne]⟩

theorem rowIssues_nil_of_validate (form : Form) (h : (validate form).1 = true) :
    ∀ i, i < totalRows form → rowIssues form i = [] := by
  intro i hi
  have hve : validateErrors form = [] := (validate_fst_true_iff form).mp h
  have hr : rowErrors form = [] := (List.append_eq_nil.mp hve).2
  by_contra hne
  have := mem_rowErrors form i hi hne
  rw [hr] at this
  exact List.not_mem_nil _ this

theorem pyStrip_empty : pyStrip "" = "" := by decide

/-- Row validation flags the entry just past the end of each list as blank. -/
theorem rowIssues_ne_nil_of_pc_short (form : Form) :
    rowIssues form form.parentCodes.length ≠ [] := by
  unfold rowIssues
  rw [List.getD_eq_default _ _ (Nat.le_refl _)]
  simp [is_blank, pyStrip_empty]

theorem rowIssues_ne_nil_of_pn_short (form : Form) :
    rowIssues form form.parentNames.length ≠ [] := by
  unfold rowIssues
  rw [List.getD_eq_default form.parentNames _ (Nat.le_refl _)]
  simp [is_blank, pyStrip_empty]

theorem rowIssues_ne_nil_of_q_short (form : Form) :
    rowIssues form form.quantities.length ≠ [] := by
  unfold rowIssues
  rw [List.getD_eq_default form.quantities _ (Nat.le_refl _)]
  simp [is_blank, pyStrip_empty]

/-- Validation success forces the three repeated lists to have length
exactly `totalRows`. -/
theorem lengths_of_validate (form : Form) (h : (validate form).1 = true) :
    form.parentCodes.length = totalRows form ∧
    form.parentNames.length = totalRows form ∧
    form.quantities.length = totalRows form := by
  have hiss := rowIssues_nil_of_validate form h
  refine ⟨Nat.le_antisymm ?_ ?_, Nat.le_antisymm ?_ ?_, Nat.le_antisymm ?_ ?_⟩
  · exact Nat.le_trans (Nat.le_max_left _ _) (Nat.le_max_left _ _)
  · by_contra hlt
    push_neg at hlt
    exact rowIssues_ne_nil_of_pc_short form (hiss _ hlt)
  · exact Nat.le_trans (Nat.le_max_right _ _) (Nat.le_max_left _ _)
  · by_contra hlt
    push_neg at hlt
    exact rowIssues_ne_nil_of_pn_short form (hiss _ hlt)
  · exact Nat.le_max_right _ _
  · by_contra hlt
    push_neg at hlt
    exact rowIssues_ne_nil_of_q_short form (hiss _ hlt)

/-! ## C1 -/

/-- C1 counterexample: a submission whose DocumentNumber is blank (and all
other fields filled) is accepted by the validator, so the claim that blank
DocumentNumber is rejected fails on this input. -/
theorem C1_counterexample :
    is_blank exFormDocBlank.documentNumber = true ∧
    validate exFormDocBlank = (true, "") := by
  constructor
  · decide
  · decide

/-- C1 (amended): the validator rejects the whole submission, returning a
failure with a nonempty violation list, whenever any of the three scalar
header fields CreatedBy, Source, Destination is blank after trimming;
DocumentNumber is not among the checked scalar fields. -/
theorem C1_scalar_blank_rejected (form : Form)
    (h : is_blank form.createdBy = true ∨ is_blank form.source = true ∨
      is_blank form.destination = true) :
    (validate form).1 = false ∧ validateErrors form ≠ [] := by
  have hne : validateErrors form ≠ [] := by
    intro hnil
    have hs : scalarErrors form = [] := (List.append_eq_nil.mp hnil).1
    rcases h with h | h | h
    · exact absurd (hs ▸ mem_scalarErrors_createdBy form h) (List.not_mem_nil _)
    · exact absurd (hs ▸ mem_scalarErrors_source form h) (List.not_mem_nil _)
    · exact absurd (hs ▸ mem_scalarErrors_destination form h) (List.not_mem_nil _)
  constructor
  · unfold validate
    rw [if_neg hne]
  · exact hne

/-- C1 witness: the amended theorem applied to the concrete submission with
a whitespace-only CreatedBy. -/
theorem C1_witness :
    (validate exFormCreatedByBlank).1 = false ∧ validateErrors exFormCreatedByBlank ≠ [] :=
  C1_scalar_blank_rejected exFormCreatedByBlank (Or.inl (by decide))

/-! ## C4 -/

/-- C4: a submission that fails validation is rejected before any file is
written and before any rows are built (the outcome is the bare validation
redirect and carries no file), and the error message is the concatenation of
the whole violation list, which contains one entry for every blank scalar
field and every row with blank entries, in input order (scalar messages
first, then row messages by ascending row index). -/
theorem C4_validation_completeness (form : Form) (nowRows nowFile : DateTime) (env : Env)
    (ftpRes : Except String Unit) (gasRes : Except String String) :
    ((validate form).1 = false →
      handlePost form nowRows nowFile env ftpRes gasRes = .rejected (validate form).2 ∧
      (handlePost form nowRows nowFile env ftpRes gasRes).fileOf = none) ∧
    (is_blank form.createdBy = true → "• CreatedBy: is required." ∈ validateErrors form) ∧
    (is_blank form.source = true → "• Source: is required." ∈ validateErrors form) ∧
    (is_blank form.destination = true → "• Destination: is required." ∈ validateErrors form) ∧
    (∀ i, i < totalRows form → rowIssues form i ≠ [] →
      ("• Row " ++ Nat.repr (i + 1) ++ ": blank -> " ++
        String.intercalate ", " (rowIssues form i)) ∈ validateErrors form) ∧
    (validateErrors form ≠ [] →
      (validate form).2 = "Please fill all required fields:\n" ++
        String.intercalate "\n" (validateErrors form)) := by
  refine ⟨?_, ?_, ?_, ?_, ?_, ?_⟩
  · intro hv
    unfold handlePost
    rw [if_pos hv]
    exact ⟨rfl, rfl⟩
  · intro h
    exact scalarErrors_sub_validateErrors form _ (mem_scalarErrors_createdBy form h)
  · intro h
    exact scalarErrors_sub_validateErrors form _ (mem_scalarErrors_source form h)
  · intro h
    exact scalarErrors_sub_validateErrors form _ (mem_scalarErrors_destination form h)
  · intro i hi hne
    exact List.mem_append_right _ (mem_rowErrors form i hi hne)
  · exact validate_snd_of_ne form

/-- C4 witness: the theorem applied to the submission with two independent
blanks (CreatedBy and the Quantity of row 2): the rejection carries no file
and the violation list contains both messages. -/
theorem C4_witness :
    handlePost exFormTwoBlanks exNow exNowFile envAllTrue (.ok ()) (.ok "") =
      .rejected (validate exFormTwoBlanks).2 ∧
    "• CreatedBy: is required." ∈ validateErrors exFormTwoBlanks ∧
    ("• Row " ++ Nat.repr 2 ++ ": blank -> " ++
      String.intercalate ", " (rowIssues exFormTwoBlanks 1)) ∈ validateErrors exFormTwoBlanks :=
  ⟨((C4_validation_completeness exFormTwoBlanks exNow exNowFile envAllTrue
      (.ok ()) (.ok "")).1 (by decide)).1,
   (C4_validation_completeness exFormTwoBlanks exNow exNowFile envAllTrue
      (.ok ()) (.ok "")).2.1 (by decide),
   (C4_validation_completeness exFormTwoBlanks exNow exNowFile envAllTrue
      (.ok ()) (.ok "")).2.2.2.2.1 1 (by decide) (by decide)⟩

/-! ## C9 -/

/-- C9: whenever `_validate_no_blanks` succeeds, the three repeated lists
have equal length, so the row-building loop indexes `parent_names[i]` and
`quantities[i]` in bounds for every `i < len(parent_codes)` and row building
returns a value instead of raising. -/
theorem C9_lists_equal_length (form : Form) (h : (validate form).1 = true) :
    form.parentNames.length = form.parentCodes.length ∧
    form.quantities.length = form.parentCodes.length ∧
    (∀ i, i < form.parentCodes.length →
      i < form.parentNames.length ∧ i < form.quantities.length) ∧
    (∀ now : DateTime, (buildRows form now).isSome = true) := by
  obtain ⟨hpc, hpn, hq⟩ := lengths_of_validate form h
  have hpn2 : form.parentNames.length = form.parentCodes.length := by omega
  have hq2 : form.quantities.length = form.parentCodes.length := by omega
  refine ⟨hpn2, hq2, ?_, ?_⟩
  · intro i hi
    omega
  · intro now
    unfold buildRows
    rw [if_neg (by omega)]
    rfl

/-- C9 witness: the theorem applied to the concrete valid two-row
submission. -/
theorem C9_witness :
    exForm.parentNames.length = exForm.parentCodes.length ∧
    exForm.quantities.length = exForm.parentCodes.length ∧
    (∀ i, i < exForm.parentCodes.length →
      i < exForm.parentNames.length ∧ i < exForm.quantities.length) ∧
    (∀ now : DateTime, (buildRows exForm now).isSome = true) :=
  C9_lists_equal_length exForm (by decide)

/-! ## C5 -/

/-- C5: for a submission that passes validation, the i-th row (1-based) of
the built batch carries Sno equal to i: the Sno field of the row at 0-based
position i is the rendering of i + 1. Since validation filters nothing, the
1-based position in the output sequence coincides with the loop index plus
one. -/
theorem C5_sno_is_position (form : Form) (now : DateTime) (rows : List Row)
    (_hv : (validate form).1 = true) (hb : buildRows form now = some rows) :
    ∀ i (h : i < rows.length), rowGet (rows.get ⟨i, h⟩) "Sno" = Nat.repr (i + 1) := by
  unfold buildRows at hb
  by_cases hg : (form.parentNames.length < form.parentCodes.length ∨
      form.quantities.length < form.parentCodes.length)
  · rw [if_pos hg] at hb
    exact absurd hb (by simp)
  · rw [if_neg hg] at hb
    injection hb with hb
    subst hb
    intro i h
    rw [List.get_eq_getElem]
    simp only [List.getElem_map, List.getElem_range]
    simp [buildRow, rowGet, List.lookup]

/-- C5 witness: the theorem applied to the concrete valid two-row
submission: the second row carries Sno 2. -/
theorem C5_witness :
    rowGet (((buildRows exForm exNow).getD []).get ⟨1, by decide⟩) "Sno" = Nat.repr 2 :=
  C5_sno_is_position exForm exNow ((buildRows exForm exNow).getD [])
    (by decide) (by decide) 1 (by decide)

/-! ## C6 -/

theorem rowGet_append_extra (r : Row) (k v col : String) (h : col ≠ k) :
    rowGet (r ++ [(k, v)]) col = rowGet r col := by
  induction r with
  | nil =>
    have hf : (col == k) = false := beq_eq_false_iff_ne.mpr h
    simp [rowGet, List.lookup, hf]
  | cons hd tl ih =>
    obtain ⟨a, b⟩ := hd
    by_cases hc : col = a
    · subst hc
      simp [rowGet, List.lookup]
    · have ha : (col == a) = false := beq_eq_false_iff_ne.mpr hc
      simp only [List.cons_append, rowGet, List.lookup, ha] at ih ⊢
      exact ih

/-- C6: the CSV encoder yields the UTF-8 byte-order mark, then the header
line with the fixed column names in the fixed order, then one line per row
with the fields in that same order; keys outside the fixed column list do
not affect the output, and a row with no fields at all is written as empty
strings. -/
theorem C6_csv_layout :
    (∀ rows : List Row, (makeCsvBytes rows).take 3 = [239, 187, 191]) ∧
    (∀ rows : List Row,
      makeCsvBytes rows = [239, 187, 191] ++ utf8Encode (makeCsvString rows)) ∧
    (∀ rows : List Row,
      makeCsvString rows =
        "Sno,CreatedDate,CreatedBy,DocumentNumber,ParentCode,ParentName,TransactionType,Quantity,Source,Destination\r\n" ++
        String.join (rows.map (fun r => csvLine (COLUMNS.map (fun k => rowGet r k))))) ∧
    (∀ (pre post : List Row) (r : Row) (k v : String), k ∉ COLUMNS →
      makeCsvBytes (pre ++ (r ++ [(k, v)]) :: post) = makeCsvBytes (pre ++ r :: post)) ∧
    makeCsvString [([] : Row)] =
      "Sno,CreatedDate,CreatedBy,DocumentNumber,ParentCode,ParentName,TransactionType,Quantity,Source,Destination\r\n" ++
      ",,,,,,,,,\r\n" := by
  have hbom : utf8Encode "\uFEFF" = [239, 187, 191] := by decide
  have hhdr : csvLine COLUMNS =
      "Sno,CreatedDate,CreatedBy,DocumentNumber,ParentCode,ParentName,TransactionType,Quantity,Source,Destination\r\n" := by
    decide
  have hbytes : ∀ rows : List Row,
      makeCsvBytes rows = [239, 187, 191] ++ utf8Encode (makeCsvString rows) := by
    intro rows
    unfold makeCsvBytes
    rw [utf8Encode_append, hbom]
  refine ⟨?_, hbytes, ?_, ?_, ?_⟩
  · intro rows
    rw [hbytes rows]
    simp [List.take]
  · intro rows
    unfold makeCsvString
    rw [hhdr]
  · intro pre post r k v hk
    have hmap : COLUMNS.map (fun col => rowGet (r ++ [(k, v)]) col) =
        COLUMNS.map (fun col => rowGet r col) :=
      List.map_congr_left (fun col hc =>
        rowGet_append_extra r k v col (fun hck => hk (hck ▸ hc)))
    simp [makeCsvBytes, makeCsvString, hmap]
  · decide

/-- C6 witness: appending a field under a key outside the fixed column list
leaves the encoded bytes unchanged. -/
theorem C6_witness :
    makeCsvBytes [([] ++ [("Extra", "zz")] : Row)] = makeCsvBytes [([] : Row)] :=
  C6_csv_layout.2.2.2.1 [] [] [] "Extra" "zz" (by decide)

/-! ## C7 -/

/-- C7: the CSV encoder is deterministic and idempotent: encoding the same
batch twice yields byte-identical output, and two batches whose rows agree
on every fixed column (whatever else their representations hold) encode to
byte-identical buffers. -/
theorem C7_encode_deterministic :
    (∀ rows : List Row, makeCsvBytes rows = makeCsvBytes rows) ∧
    (∀ rows₁ rows₂ : List Row, rows₁.length = rows₂.length →
      (∀ i < rows₁.length, ∀ k ∈ COLUMNS,
        rowGet (rows₁.getD i []) k = rowGet (rows₂.getD i []) k) →
      makeCsvBytes rows₁ = makeCsvBytes rows₂) := by
  refine ⟨fun rows => rfl, ?_⟩
  intro rows₁ rows₂ hlen hag
  have hmap : rows₁.map (fun r => csvLine (COLUMNS.map (fun k => rowGet r k))) =
      rows₂.map (fun r => csvLine (COLUMNS.map (fun k => rowGet r k))) := by
    apply List.ext_get
    · simp [hlen]
    · intro n h1 h2
      rw [List.get_eq_getElem, List.get_eq_getElem, List.getElem_map, List.getElem_map]
      have hn1 : n < rows₁.length := by simpa using h1
      have hn2 : n < rows₂.length := by simpa using h2
      congr 1
      apply List.map_congr_left
      intro k hk
      have hix := hag n hn1 k hk
      rwa [List.getD_eq_getElem rows₁ _ hn1, List.getD_eq_getElem rows₂ _ hn2] at hix
  simp [makeCsvBytes, makeCsvString, hmap]

/-- C7 witness: two representations of the same single-row batch (one with
an extra ignored key) encode to identical bytes. -/
theorem C7_witness :
    makeCsvBytes [[("Sno", "1"), ("Junk", "x")]] = makeCsvBytes [[("Sno", "1")]] :=
  C7_encode_deterministic.2 [[("Sno", "1"), ("Junk", "x")]] [[("Sno", "1")]]
    (by decide) (by decide)

/-! ## C3 -/

/-- C3 counterexample: in an environment where every variable — hence every
boolean switch under any name, including any Drive switch — is enabled, the
dispatcher attempts FTP and the GAS webhook (each right after a rewind) and
never attempts Drive, so the claim that all three of FTP, Drive and webhook
are dispatched fails on this input. -/
theorem C3_counterexample :
    get_env_bool envAllTrue "EXPORT_TO_FTP" = true ∧
    get_env_bool envAllTrue "EXPORT_TO_GAS_WEBAPP" = true ∧
    get_env_bool envAllTrue "EXPORT_TO_GDRIVE" = true ∧
    (dispatch envAllTrue (.ok ()) (.ok "")).2.2 =
      [Ev.seek0, Ev.att Transport.FTP, Ev.seek0, Ev.att Transport.GAS] ∧
    Ev.att Transport.Drive ∉ (dispatch envAllTrue (.ok ()) (.ok "")).2.2 := by
  decide

/-- C3 (amended): the dispatcher has one independently-toggleable boolean
switch per transport for each of the two transports FTP and generic webhook
(GAS); for each enabled switch, in the fixed order FTP-then-webhook, it
rewinds the byte buffer to position 0 and attempts the upload, and each of
these two transports is attempted exactly when its own switch is enabled.
No Drive upload is ever dispatched. -/
theorem C3_switches (env : Env) (ftpRes : Except String Unit) (gasRes : Except String String) :
    (dispatch env ftpRes gasRes).2.2 =
      (if get_env_bool env "EXPORT_TO_FTP" then [Ev.seek0, Ev.att Transport.FTP] else []) ++
      (if get_env_bool env "EXPORT_TO_GAS_WEBAPP" then [Ev.seek0, Ev.att Transport.GAS] else []) ∧
    ((Ev.att Transport.FTP ∈ (dispatch env ftpRes gasRes).2.2) ↔
      get_env_bool env "EXPORT_TO_FTP" = true) ∧
    ((Ev.att Transport.GAS ∈ (dispatch env ftpRes gasRes).2.2) ↔
      get_env_bool env "EXPORT_TO_GAS_WEBAPP" = true) ∧
    Ev.att Transport.Drive ∉ (dispatch env ftpRes gasRes).2.2 := by
  rcases ftpRes with e | u <;> rcases gasRes with e2 | r <;>
    by_cases hf : get_env_bool env "EXPORT_TO_FTP" = true <;>
    by_cases hg : get_env_bool env "EXPORT_TO_GAS_WEBAPP" = true <;>
    simp [dispatch, hf, hg]

/-- C3 witness: the amended theorem applied to the all-enabled environment. -/
theorem C3_witness :
    (dispatch envAllTrue (.ok ()) (.ok "reply")).2.2 =
      (if get_env_bool envAllTrue "EXPORT_TO_FTP"
        then [Ev.seek0, Ev.att Transport.FTP] else []) ++
      (if get_env_bool envAllTrue "EXPORT_TO_GAS_WEBAPP"
        then [Ev.seek0, Ev.att Transport.GAS] else []) :=
  (C3_switches envAllTrue (.ok ()) (.ok "reply")).1

/-! ## C2 -/

/-- C2: transport isolation. The accumulated success list names exactly the
enabled transports whose upload succeeded; an enabled transport that raises
has its named failure recorded as a flashed error; the GAS webhook is
attempted exactly when its switch is on, regardless of the FTP outcome; the
locally written file does not depend on either transport outcome; and for a
validated submission the response is the export outcome whose success flash
names exactly the succeeded transports. -/
theorem C2_transport_isolation (env : Env) (form : Form) (nowRows nowFile : DateTime)
    (ftpRes : Except String Unit) (gasRes : Except String String) :
    (dispatch env ftpRes gasRes).1 =
      (if get_env_bool env "EXPORT_TO_FTP" && ftpRes.isOk then ["FTP"] else []) ++
      (if get_env_bool env "EXPORT_TO_GAS_WEBAPP" && gasRes.isOk
        then ["Google Apps Script"] else []) ∧
    (∀ e, get_env_bool env "EXPORT_TO_FTP" = true → ftpRes = .error e →
      ("FTP upload failed: " ++ e, "error") ∈ (dispatch env ftpRes gasRes).2.1) ∧
    (∀ e, get_env_bool env "EXPORT_TO_GAS_WEBAPP" = true → gasRes = .error e →
      ("GAS upload failed: " ++ e, "error") ∈ (dispatch env ftpRes gasRes).2.1) ∧
    ((Ev.att Transport.GAS ∈ (dispatch env ftpRes gasRes).2.2) ↔
      get_env_bool env "EXPORT_TO_GAS_WEBAPP" = true) ∧
    ((handlePost form nowRows nowFile env ftpRes gasRes).fileOf =
      (handlePost form nowRows nowFile env (.ok ()) (.ok "")).fileOf) ∧
    ((validate form).1 = true → ∀ rows, buildRows form nowRows = some rows →
      handlePost form nowRows nowFile env ftpRes gasRes = .exported
        (mkFilename (form.form_type.getD "Store Return") nowFile)
        (makeCsvBytes rows) rows
        (dispatch env ftpRes gasRes).1
        ((dispatch env ftpRes gasRes).2.1 ++
          [(successMsg (mkFilename (form.form_type.getD "Store Return") nowFile)
            (dispatch env ftpRes gasRes).1, "success")])) := by
  refine ⟨?_, ?_, ?_, ?_, ?_, ?_⟩
  · rcases ftpRes with e | u <;> rcases gasRes with e2 | r <;>
      by_cases hf : get_env_bool env "EXPORT_TO_FTP" = true <;>
      by_cases hg : get_env_bool env "EXPORT_TO_GAS_WEBAPP" = true <;>
      simp [dispatch, hf, hg, Except.isOk, Except.toBool]
  · intro e hf he
    subst he
    rcases gasRes with e2 | r <;>
      by_cases hg : get_env_bool env "EXPORT_TO_GAS_WEBAPP" = true <;>
      simp [dispatch, hf, hg]
  · intro e hg he
    subst he
    rcases ftpRes with e2 | u <;>
      by_cases hf : get_env_bool env "EXPORT_TO_FTP" = true <;>
      simp [dispatch, hf, hg]
  · rcases ftpRes with e | u <;> rcases gasRes with e2 | r <;>
      by_cases hf : get_env_bool env "EXPORT_TO_FTP" = true <;>
      by_cases hg : get_env_bool env "EXPORT_TO_GAS_WEBAPP" = true <;>
      simp [dispatch, hf, hg]
  · unfold handlePost
    by_cases hv : (validate form).1 = false
    · rw [if_pos hv, if_pos hv]
    · rw [if_neg hv, if_neg hv]
      cases hb : buildRows form nowRows <;> simp [PostOutcome.fileOf]
  · intro hv rows hb
    unfold handlePost
    rw [if_neg (by simp [hv]), hb]

/-- C2 witness: with every switch enabled and FTP raising, the named FTP
failure is flashed while the file is still written, the rows still built,
and the success flash still emitted from the dispatched results. -/
theorem C2_witness :
    ("FTP upload failed: " ++ "boom", "error") ∈
      (dispatch envAllTrue (.error "boom") (.ok "hi")).2.1 ∧
    handlePost exForm exNow exNowFile envAllTrue (.error "boom") (.ok "hi") = .exported
      (mkFilename (exForm.form_type.getD "Store Return") exNowFile)
      (makeCsvBytes ((buildRows exForm exNow).getD []))
      ((buildRows exForm exNow).getD [])
      (dispatch envAllTrue (.error "boom") (.ok "hi")).1
      ((dispatch envAllTrue (.error "boom") (.ok "hi")).2.1 ++
        [(successMsg (mkFilename (exForm.form_type.getD "Store Return") exNowFile)
          (dispatch envAllTrue (.error "boom") (.ok "hi")).1, "success")]) :=
  ⟨(C2_transport_isolation envAllTrue exForm exNow exNowFile (.error "boom") (.ok "hi")).2.1
      "boom" (by decide) rfl,
   (C2_transport_isolation envAllTrue exForm exNow exNowFile
      (.error "boom") (.ok "hi")).2.2.2.2.2 (by decide) _ (by decide)⟩

/-! ## C8 -/

/-- C8: the filename is the prefix STORE_RETURN (for form variant Store
Return) or STORE_RET_DAMAGE (otherwise) followed by the YYMMDDHHMMSS
timestamp and the extension .CSV; for in-range date components the timestamp
is exactly 12 decimal digits; and the concrete example yields
STORE_RET_DAMAGE250301100000.CSV. -/
theorem C8_filename (form_type : String) (t : DateTime) :
    mkFilename form_type t =
      (if form_type = "Store Return" then "STORE_RETURN" else "STORE_RET_DAMAGE") ++
        fmtTs t ++ ".CSV" ∧
    (t.month < 100 → t.day < 100 → t.hour < 100 → t.minute < 100 → t.second < 100 →
      (fmtTs t).length = 12 ∧ (fmtTs t).data.all Char.isDigit = true) ∧
    mkFilename "Store Return Damage" ⟨2025, 3, 1, 10, 0, 0⟩ =
      "STORE_RET_DAMAGE250301100000.CSV" := by
  have hpad : ∀ n < 100, (pad2 n).length = 2 ∧ (pad2 n).data.all Char.isDigit = true := by
    decide
  refine ⟨rfl, ?_, by decide⟩
  intro h1 h2 h3 h4 h5
  have hy : t.year % 100 < 100 := Nat.mod_lt _ (by norm_num)
  obtain ⟨ly, dy⟩ := hpad _ hy
  obtain ⟨lmo, dmo⟩ := hpad _ h1
  obtain ⟨ld, dd⟩ := hpad _ h2
  obtain ⟨lh, dh⟩ := hpad _ h3
  obtain ⟨lmi, dmi⟩ := hpad _ h4
  obtain ⟨ls, ds⟩ := hpad _ h5
  constructor
  · simp [fmtTs, String.length_append, ly, lmo, ld, lh, lmi, ls]
  · simp [fmtTs, String.data_append, List.all_append, dy, dmo, dd, dh, dmi, ds]

/-- C8 witness: the 12-digit property applied at a concrete timestamp. -/
theorem C8_witness :
    (fmtTs ⟨2026, 10, 12, 3, 4, 5⟩).length = 12 ∧
    (fmtTs ⟨2026, 10, 12, 3, 4, 5⟩).data.all Char.isDigit = true :=
  (C8_filename "Store Return" ⟨2026, 10, 12, 3, 4, 5⟩).2.1
    (by decide) (by decide) (by decide) (by decide) (by decide)

/-! ## C10 -/

theorem debug_env_authorized (env : Env) (key : Option String)
    (h : key = some (debugKey env)) :
    debug_env env key = .ok200
      { exportToGasSet := envTruthy env "EXPORT_TO_GAS_WEBAPP"
        driveWebappUrlSet := envTruthy env "DRIVE_WEBAPP_URL"
        driveUploadTokenSet := envTruthy env "DRIVE_UPLOAD_TOKEN"
        secretKeySet := envTruthy env "SECRET_KEY"
        driveUrlTail := if ((env "DRIVE_WEBAPP_URL").getD "") ≠ ""
          then ((env "DRIVE_WEBAPP_URL").getD "").takeRight 25 else "" } := by
  unfold debug_env
  rw [if_neg (by simp [h])]

/-- C10 counterexample: two configurations that agree on which of the four
variables are set (SECRET_KEY set in both, the rest unset) and on the last
25 characters of DRIVE_WEBAPP_URL, yet produce different authorized
responses, because the code reports `bool(os.getenv(k))`, which
distinguishes an empty-string value from a non-empty one. -/
theorem C10_counterexample :
    ((envSecretEmpty "SECRET_KEY").isSome = (envSecretX "SECRET_KEY").isSome) ∧
    ((envSecretEmpty "EXPORT_TO_GAS_WEBAPP").isSome =
      (envSecretX "EXPORT_TO_GAS_WEBAPP").isSome) ∧
    ((envSecretEmpty "DRIVE_UPLOAD_TOKEN").isSome =
      (envSecretX "DRIVE_UPLOAD_TOKEN").isSome) ∧
    ((envSecretEmpty "DRIVE_WEBAPP_URL").isSome =
      (envSecretX "DRIVE_WEBAPP_URL").isSome) ∧
    (((envSecretEmpty "DRIVE_WEBAPP_URL").getD "").takeRight 25 =
      ((envSecretX "DRIVE_WEBAPP_URL").getD "").takeRight 25) ∧
    debug_env envSecretEmpty (some "my-debug-key") ≠
      debug_env envSecretX (some "my-debug-key") := by
  decide

/-- C10 (amended): a request whose key query parameter differs from the
configured debug key receives the 403 response; and for authorized requests
the response depends on the configuration only through whether each of the
four variables is set to a NON-EMPTY value and through the last 25
characters of DRIVE_WEBAPP_URL: two configurations agreeing on those
produce identical responses, so full secret values are never disclosed
beyond that tail. -/
theorem C10_debug_env :
    (∀ (env : Env) (key : Option String), key ≠ some (debugKey env) →
      debug_env env key = .forbidden403) ∧
    (∀ (env1 env2 : Env) (key : Option String),
      key = some (debugKey env1) → key = some (debugKey env2) →
      envTruthy env1 "EXPORT_TO_GAS_WEBAPP" = envTruthy env2 "EXPORT_TO_GAS_WEBAPP" →
      envTruthy env1 "DRIVE_WEBAPP_URL" = envTruthy env2 "DRIVE_WEBAPP_URL" →
      envTruthy env1 "DRIVE_UPLOAD_TOKEN" = envTruthy env2 "DRIVE_UPLOAD_TOKEN" →
      envTruthy env1 "SECRET_KEY" = envTruthy env2 "SECRET_KEY" →
      ((env1 "DRIVE_WEBAPP_URL").getD "").takeRight 25 =
        ((env2 "DRIVE_WEBAPP_URL").getD "").takeRight 25 →
      debug_env env1 key = debug_env env2 key) := by
  constructor
  · intro env key h
    unfold debug_env
    rw [if_pos h]
  · intro env1 env2 key h1 h2 hg hu ht hs hurl
    rw [debug_env_authorized env1 key h1, debug_env_authorized env2 key h2]
    have hu2 : (((env1 "DRIVE_WEBAPP_URL").getD "") = "") ↔
        (((env2 "DRIVE_WEBAPP_URL").getD "") = "") := by
      simp only [envTruthy, ne_eq, decide_eq_decide] at hu
      exact not_iff_not.mp hu
    simp only [DebugResp.ok200.injEq, DebugData.mk.injEq]
    refine ⟨hg, hu, ht, hs, ?_⟩
    by_cases hc : ((env1 "DRIVE_WEBAPP_URL").getD "") = ""
    · rw [if_neg (fun hn => hn hc), if_neg (fun hn => hn (hu2.mp hc))]
    · rw [if_pos hc, if_pos (fun h2c => hc (hu2.mpr h2c))]
      exact hurl

/-- C10 witness: two configurations whose SECRET_KEY values are different
non-empty secrets produce identical authorized responses. -/
theorem C10_witness :
    debug_env envSecretAlpha (some "my-debug-key") =
      debug_env envSecretBeta (some "my-debug-key") :=
  C10_debug_env.2 envSecretAlpha envSecretBeta (some "my-debug-key")
    (by decide) (by decide) (by decide) (by decide) (by decide) (by decide) (by decide)

end StoreReturnApp
